import Mathlib

set_option linter.unusedVariables false

/-!
Shallow embedding of the `simple_video_encoder` Rust crate
(src/lib.rs, src/output.rs, src/frame.rs).

The crate orchestrates the ffmpeg C libraries.  Every native call is out of
scope for the crate itself, so the embedding treats the outcome of each
native call (allocation success, returned status code, packet availability,
pixel conversion math) as an environment parameter, and embeds faithfully
the Rust control flow that reacts to those outcomes: which branches are
taken, which state fields are mutated, which calls are made in which order,
and which error values are produced.
-/

/-- Errors produced by the crate.  `make_av_error` in src/lib.rs turns a
native status code plus an action description into a message; plain string
errors come from `.into()` on a string literal.  We keep both shapes
distinguishable instead of flattening to strings. -/
inductive EncError where
  | av (action : String) (code : Int)
  | msg (s : String)
deriving DecidableEq, Repr

/-- `AVERROR(EAGAIN)` on Linux: EAGAIN = 11, AVERROR negates it. -/
def AVERROR_EAGAIN : Int := -11

/-- `AVERROR_EOF` = FFERRTAG of "EOF ". -/
def AVERROR_EOF : Int := -541478725

/-- An AVRational time base: numerator and denominator. -/
structure TimeBase where
  num : Int
  den : Int
deriving DecidableEq, Repr

/-! ## AVCodecContextWrapper::flush (src/output.rs lines 181-216)

The drain loop repeatedly calls `avcodec_receive_packet`.  Each call either
returns a status code with no packet (negative) or fills the reusable packet
and returns a nonnegative code.  One `RecvStep` records the outcome of one
`avcodec_receive_packet` call: its return code, the presentation timestamp
the encoder put on the packet when the code is nonnegative, and the return
code `av_interleaved_write_frame` would give for that packet. -/

structure RecvStep where
  recvRes : Int
  pktPts : Int
  writeRes : Int
deriving DecidableEq, Repr

/-- A packet as handed to `av_interleaved_write_frame`: its timestamp after
`av_packet_rescale_ts` and the stream index stamped on it. -/
structure PacketOut where
  pts : Int
  streamIndex : Int
deriving DecidableEq, Repr

/-- Result of one drain call: `ok` (loop left via EAGAIN/EOF), `err`
(a receive or write failure propagated), or `noMoreSteps` when the oracle
list of receive outcomes is exhausted before a terminal condition (the real
loop would keep calling into the encoder).  Each constructor carries the
packets handed to the container so far, in order. -/
inductive FlushResult where
  | ok (handed : List PacketOut)
  | err (e : EncError) (handed : List PacketOut)
  | noMoreSteps (handed : List PacketOut)
deriving DecidableEq, Repr

/-- Embedding of `AVCodecContextWrapper::flush`.  `rescale` is the behavior
of the external `av_packet_rescale_ts` (a function of source time base,
destination time base and timestamp); `encTB` is the codec context's time
base, `strTB` and `idx` the stream's time base and index.  The Rust loop
runs while `res >= 0`; it breaks successfully on `AVERROR(EAGAIN)` or
`AVERROR_EOF`, fails on any other negative receive code, otherwise rescales
the packet timestamp, stamps the stream index, and writes interleaved,
failing if the write returns a negative code. -/
def AVCodecContextWrapper.flushLoop (rescale : TimeBase → TimeBase → Int → Int)
    (encTB strTB : TimeBase) (idx : Int) :
    List RecvStep → List PacketOut → FlushResult
  | [], handed => .noMoreSteps handed
  | s :: rest, handed =>
    if s.recvRes = AVERROR_EAGAIN ∨ s.recvRes = AVERROR_EOF then
      .ok handed
    else if s.recvRes < 0 then
      .err (.av "encoding a frame" s.recvRes) handed
    else
      let out : PacketOut := { pts := rescale encTB strTB s.pktPts, streamIndex := idx }
      if s.writeRes < 0 then
        .err (.av "writing output packet" s.writeRes) (handed ++ [out])
      else
        AVCodecContextWrapper.flushLoop rescale encTB strTB idx rest (handed ++ [out])

/-- Top-level entry of the drain: starts with no packets handed yet. -/
def AVCodecContextWrapper.flush (rescale : TimeBase → TimeBase → Int → Int)
    (encTB strTB : TimeBase) (idx : Int) (steps : List RecvStep) : FlushResult :=
  AVCodecContextWrapper.flushLoop rescale encTB strTB idx steps []

/-- A receive step that yields a packet and whose interleaved write
succeeds: the loop processes it and keeps going. -/
def goodStep (s : RecvStep) : Prop := 0 ≤ s.recvRes ∧ 0 ≤ s.writeRes

instance (s : RecvStep) : Decidable (goodStep s) := by
  unfold goodStep; infer_instance

/-- The packet a receive step turns into, after timestamp rescale and
stream-index tagging. -/
def stepPacket (rescale : TimeBase → TimeBase → Int → Int)
    (encTB strTB : TimeBase) (idx : Int) (s : RecvStep) : PacketOut :=
  { pts := rescale encTB strTB s.pktPts, streamIndex := idx }

/-! ## Frame (src/frame.rs)

A `Frame` wraps an `AVFrame`: pixel format, geometry, presentation
timestamp, and the plane-0 byte buffer with its stride.  The buffer is
modelled as a `List Nat` of bytes (the crate only ever touches plane 0). -/

/-- `AV_NOPTS_VALUE`, the pts value `av_frame_alloc` initializes. -/
def AV_NOPTS_VALUE : Int := -9223372036854775808

structure Frame where
  pixel_format : Int
  width : Int
  height : Int
  pts : Int
  data0 : List Nat
  linesize0 : Int
deriving DecidableEq, Repr

/-- Outcome of the native allocation calls inside `Frame::new`:
whether `av_frame_alloc` returned non-null, the `av_frame_get_buffer`
status code, and the buffer (contents and stride) it allocated. -/
structure FrameAllocEnv where
  allocOk : Bool
  bufferRes : Int
  buffer : List Nat
  stride : Int
deriving DecidableEq, Repr

/-- Embedding of `Frame::new` (src/frame.rs lines 128-145). -/
def Frame.new (env : FrameAllocEnv) (fmt width height : Int) :
    Except EncError Frame :=
  if ¬env.allocOk then .error (.msg "Error allocating AVFrame")
  else if env.bufferRes < 0 then .error (.av "allocating frame buffer" env.bufferRes)
  else .ok { pixel_format := fmt, width := width, height := height,
             pts := AV_NOPTS_VALUE, data0 := env.buffer, linesize0 := env.stride }

/-- Embedding of `Frame::set_pts` (src/frame.rs lines 160-164). -/
def Frame.set_pts (f : Frame) (pts : Int) : Frame := { f with pts := pts }

/-! ## SwsContextWrapper (src/output.rs lines 245-292)

`SwsContextWrapper::new` snapshots both frames' geometry and format into
`sws_getContext`; the wrapper records those creation arguments.
`scale` calls `dest.ensure_writeable()?`, then `sws_scale` whose return
value is discarded, and returns `Ok(())`. -/

structure SwsCtxRecord where
  srcW : Int
  srcH : Int
  srcFmt : Int
  dstW : Int
  dstH : Int
  dstFmt : Int
deriving DecidableEq, Repr

/-- The creation arguments `SwsContextWrapper::new` passes to
`sws_getContext` for a given source and destination frame. -/
def SwsCtxRecord.ofFrames (src dest : Frame) : SwsCtxRecord :=
  { srcW := src.width, srcH := src.height, srcFmt := src.pixel_format,
    dstW := dest.width, dstH := dest.height, dstFmt := dest.pixel_format }

/-- Embedding of `SwsContextWrapper::scale` (src/output.rs lines 270-286).
`ensureRes` is the status `av_frame_make_writable` returns for `dest`;
`swsRes` is what `sws_scale` returns; `converted` is the plane-0 content
the external conversion library writes into `dest`.  The Rust code ignores
`sws_scale`'s return value entirely: the only fallible step is
`ensure_writeable`.  `src` and `height` are forwarded to `sws_scale` and do
not influence the control flow. -/
def SwsContextWrapper.scale (ensureRes swsRes : Int) (converted : List Nat)
    (src dest : Frame) (height : Int) : Except EncError Frame :=
  if ensureRes < 0 then .error (.av "making frame writeable" ensureRes)
  else .ok { dest with data0 := converted }

/-! ## Builder settings (src/lib.rs lines 47-93)

`X264Preset` is the 9-level speed/quality enum; `as_bytes_with_nul`
serializes it to the option string passed to the encoder.
`OptionalSettings` holds the four optional builder settings. -/

inductive X264Preset where
  | ultraFast
  | superFast
  | veryFast
  | faster
  | fast
  | medium
  | slow
  | slower
  | verySlow
deriving DecidableEq, Repr

/-- Embedding of `X264Preset::as_bytes_with_nul`, without the trailing
nul byte. -/
def X264Preset.as_bytes_with_nul : X264Preset → String
  | .ultraFast => "ultrafast"
  | .superFast => "superfast"
  | .veryFast => "veryfast"
  | .faster => "faster"
  | .fast => "fast"
  | .medium => "medium"
  | .slow => "slow"
  | .slower => "slower"
  | .verySlow => "veryslow"

structure OptionalSettings where
  crf : Option Int
  bitrate : Option Int
  gop_size : Option Int
  preset : Option X264Preset
deriving DecidableEq, Repr

/-! ## OutputStream (src/output.rs lines 294-436) -/

/-- The AVCodecContext fields `OutputStream::new` configures. -/
structure CodecContext where
  codec_id : Int
  bit_rate : Int
  width : Int
  height : Int
  time_base : TimeBase
  gop_size : Int
  pix_fmt : Int
  flags : Int
deriving DecidableEq, Repr

/-- `AV_CODEC_FLAG_GLOBAL_HEADER` = 1 <<< 22. -/
def AV_CODEC_FLAG_GLOBAL_HEADER : Int := 4194304

/-- The `OutputStream` struct (src/output.rs lines 294-305): the
container-side stream slot (index, time base), the encoder context, the
next presentation timestamp, the temporary destination frame, and the
lazily created conversion context (recorded by its creation arguments). -/
structure OutputStreamState where
  streamId : Int
  streamIndex : Int
  streamTimeBase : TimeBase
  codecCtx : CodecContext
  next_pts : Int
  temp_frame : Frame
  sws_context : Option SwsCtxRecord
deriving DecidableEq, Repr

/-- Outcomes of the native calls inside `OutputStream::new`:
`avformat_new_stream` success plus the stream index it assigns and the
container's resulting stream count, `avcodec_alloc_context3` success,
the temp-frame allocation, `av_packet_alloc` success, and whether the
container format has the `AVFMT_GLOBALHEADER` flag. -/
structure StreamNewEnv where
  streamAllocOk : Bool
  nbStreams : Int
  streamIdx : Int
  codecCtxAllocOk : Bool
  tempFrameEnv : FrameAllocEnv
  packetAllocOk : Bool
  formatGlobalHeader : Bool
deriving DecidableEq, Repr

/-- Embedding of `OutputStream::new` (src/output.rs lines 307-349):
allocates the stream slot, sets its id to nb_streams - 1, allocates the
encoder context and configures codec id, bit rate (default 800000),
geometry, time base 1/framerate (shared with the stream), GOP size
(default 10) and pixel format, sets the global-header flag when the
container requires it, and builds the state with `next_pts = 0`, a fresh
destination frame in the target format, a reusable packet, and no
conversion context yet. -/
def OutputStream.new (env : StreamNewEnv) (codecId width height framerate pixFmt : Int)
    (settings : OptionalSettings) : Except EncError OutputStreamState :=
  if ¬env.streamAllocOk then .error (.msg "Error allocating AVStream")
  else if ¬env.codecCtxAllocOk then .error (.msg "Error allocating AVCodecContext")
  else
    let tb : TimeBase := { num := 1, den := framerate }
    let ctx : CodecContext :=
      { codec_id := codecId
        bit_rate := settings.bitrate.getD 800000
        width := width
        height := height
        time_base := tb
        gop_size := settings.gop_size.getD 10
        pix_fmt := pixFmt
        flags := if env.formatGlobalHeader then AV_CODEC_FLAG_GLOBAL_HEADER else 0 }
    match Frame.new env.tempFrameEnv pixFmt width height with
    | .error e => .error e
    | .ok tf =>
      if ¬env.packetAllocOk then .error (.msg "Error allocating AVPacket")
      else .ok
        { streamId := env.nbStreams - 1
          streamIndex := env.streamIdx
          streamTimeBase := tb
          codecCtx := ctx
          next_pts := 0
          temp_frame := tf
          sws_context := none }

/-- A value in the AVDictionary of encoder options. -/
inductive DictVal where
  | str (s : String)
  | int (i : Int)
deriving DecidableEq, Repr

/-- The option dictionary `OutputStream::open_video` builds
(src/output.rs lines 356-370): always a "preset" entry (default
`Medium`), and a "crf" entry only when the CRF setting is present. -/
def OutputStream.openVideoOptions (settings : OptionalSettings) : List (String × DictVal) :=
  [("preset", .str (settings.preset.getD .medium).as_bytes_with_nul)] ++
    (match settings.crf with
     | some c => [("crf", .int c)]
     | none => [])

/-! ## OutputStream::write_frame (src/output.rs lines 397-428)

The embedding records the externally visible calls as a list of events:
conversion-context creation (with the `sws_getContext` arguments),
`sws_scale` invocation (with the height argument passed), the frame handed
to `avcodec_send_frame` (with the pts stamped on it and whether it was the
temporary destination frame), and the drain call. -/

inductive Ev where
  | createdSws (arg : SwsCtxRecord)
  | scaled (height : Int)
  | sentFrame (usedTemp : Bool) (pts : Int)
  | drained
  | sentEOF
  | wroteTrailer
deriving DecidableEq, Repr

/-- The caller-visible verdict of an operation: ok, a propagated error, or
no verdict because the drain oracle ran out of receive outcomes. -/
inductive StepResult where
  | ok
  | err (e : EncError)
  | stuck
deriving DecidableEq, Repr

/-- Outcomes of the native calls inside one `write_frame`:
`sws_getContext` success, `av_frame_make_writable` status for the
destination frame, `sws_scale` return value and the converted plane
content, `avcodec_send_frame` status, and the drain behavior. -/
structure WriteFrameEnv where
  swsAllocOk : Bool
  ensureRes : Int
  swsRes : Int
  converted : List Nat
  sendRes : Int
  rescale : TimeBase → TimeBase → Int → Int
  recvSteps : List RecvStep

/-- Result of one `write_frame`: verdict, updated stream state, the
caller's frame (mutated in place on the direct path), and the events. -/
structure WriteOut where
  res : StepResult
  st : OutputStreamState
  callerFrame : Frame
  evs : List Ev

/-- Stamping and submission tail of `write_frame` (src/output.rs lines
420-427): set the chosen frame's pts to `next_pts`, increment the counter,
send the frame, then drain.  `usedTemp` tells whether the chosen frame is
the stream's temporary destination frame or the caller's frame. -/
def OutputStream.stampSendDrain (env : WriteFrameEnv) (st : OutputStreamState)
    (callerFrame chosen : Frame) (usedTemp : Bool) (evs : List Ev) : WriteOut :=
  let pts := st.next_pts
  let chosen1 := chosen.set_pts pts
  let st1 :=
    if usedTemp then { st with temp_frame := chosen1, next_pts := pts + 1 }
    else { st with next_pts := pts + 1 }
  let caller1 := if usedTemp then callerFrame else chosen1
  if env.sendRes < 0 then
    { res := .err (.av "sending frame to encoder" env.sendRes), st := st1,
      callerFrame := caller1, evs := evs ++ [.sentFrame usedTemp pts] }
  else
    let verdict :=
      match AVCodecContextWrapper.flush env.rescale st.codecCtx.time_base
          st.streamTimeBase st.streamIndex env.recvSteps with
      | .ok _ => StepResult.ok
      | .err e _ => StepResult.err e
      | .noMoreSteps _ => StepResult.stuck
    { res := verdict, st := st1, callerFrame := caller1,
      evs := evs ++ [.sentFrame usedTemp pts, .drained] }

/-- Conversion branch of `write_frame` (src/output.rs lines 408-415): call
`scale` on the cached conversion context with the height argument taken
from the encoder context, then send the temporary destination frame. -/
def OutputStream.convertSendDrain (env : WriteFrameEnv) (st : OutputStreamState)
    (frame : Frame) (evs : List Ev) : WriteOut :=
  let evs1 := evs ++ [.scaled st.codecCtx.height]
  match SwsContextWrapper.scale env.ensureRes env.swsRes env.converted
      frame st.temp_frame st.codecCtx.height with
  | .error e => { res := .err e, st := st, callerFrame := frame, evs := evs1 }
  | .ok tf =>
    OutputStream.stampSendDrain env { st with temp_frame := tf } frame tf true evs1

/-- Embedding of `OutputStream::write_frame` (src/output.rs lines
397-428): when the submitted frame's pixel format differs from the encoder
context's pixel format, lazily create the conversion context on first use
(caching it in `sws_context`) and convert into the temporary destination
frame; otherwise send the caller's frame directly. -/
def OutputStream.write_frame (env : WriteFrameEnv) (st : OutputStreamState)
    (frame : Frame) : WriteOut :=
  if st.codecCtx.pix_fmt = frame.pixel_format then
    OutputStream.stampSendDrain env st frame frame false []
  else
    match st.sws_context with
    | some _ => OutputStream.convertSendDrain env st frame []
    | none =>
      if env.swsAllocOk then
        let r0 := SwsCtxRecord.ofFrames frame st.temp_frame
        OutputStream.convertSendDrain env { st with sws_context := some r0 }
          frame [.createdSws r0]
      else
        { res := .err (.msg "Error initializing SwsContext"), st := st,
          callerFrame := frame, evs := [] }

/-- A concrete stream state used by witnesses: H.264-style codec context in
pixel format 0 (YUV420P) at 2x2, stream index 0, fresh counter. -/
def sampleStream : OutputStreamState :=
  { streamId := 0, streamIndex := 0, streamTimeBase := { num := 1, den := 30 },
    codecCtx :=
      { codec_id := 27, bit_rate := 800000, width := 2, height := 2,
        time_base := { num := 1, den := 30 }, gop_size := 10, pix_fmt := 0,
        flags := 0 },
    next_pts := 0,
    temp_frame :=
      { pixel_format := 0, width := 2, height := 2, pts := AV_NOPTS_VALUE,
        data0 := [], linesize0 := 6 },
    sws_context := none }

/-- A concrete RGB frame (pixel format 2) whose geometry differs from the
encoder's and that carries a caller-chosen pts. -/
def sampleRgbFrame : Frame :=
  { pixel_format := 2, width := 5, height := 7, pts := 42, data0 := [],
    linesize0 := 15 }

/-- A write-frame environment in which every native call succeeds and the
drain immediately reports EAGAIN. -/
def sampleWriteEnv : WriteFrameEnv :=
  { swsAllocOk := true, ensureRes := 0, swsRes := 0, converted := [],
    sendRes := 0, rescale := fun _ _ p => p,
    recvSteps := [{ recvRes := AVERROR_EAGAIN, pktPts := 0, writeRes := 0 }] }

/-- The presentation timestamps of the frames handed to
`avcodec_send_frame`, in order, read off the event list. -/
def sentPts (evs : List Ev) : List Int :=
  evs.filterMap fun e =>
    match e with
    | .sentFrame _ p => some p
    | _ => none

/-- One `write_frame` call reaches the stamping/sending stage exactly when
no conversion-setup failure precedes it: either the formats match, or the
conversion-context allocation and the writability check both succeed. -/
def reachesSend (env : WriteFrameEnv) (st : OutputStreamState) (frame : Frame) : Prop :=
  st.codecCtx.pix_fmt = frame.pixel_format ∨
    (env.swsAllocOk = true ∧ 0 ≤ env.ensureRes)

/-- A sequence of `write_frame` calls: each element pairs the submitted
frame with the native-call outcomes during that submission.  Returns the
final stream state and the concatenated events. -/
def OutputStream.writeFrames (st : OutputStreamState) :
    List (Frame × WriteFrameEnv) → OutputStreamState × List Ev
  | [] => (st, [])
  | (f, env) :: rest =>
    let out := OutputStream.write_frame env st f
    let next := OutputStream.writeFrames out.st rest
    (next.1, out.evs ++ next.2)

/-! ## finish (src/output.rs lines 430-435, src/lib.rs lines 220-224) -/

/-- Outcomes of the native calls during `finish`: the status of
`avcodec_send_frame(ctx, null)` (the end-of-stream signal), the drain
behavior, and the `av_write_trailer` status. -/
structure FinishEnv where
  sendEofRes : Int
  rescale : TimeBase → TimeBase → Int → Int
  recvSteps : List RecvStep
  trailerRes : Int

/-- Embedding of `OutputStream::finish` (src/output.rs lines 430-435):
send the null frame (recorded as `sentEOF`), then run one drain. -/
def OutputStream.finish (env : FinishEnv) (st : OutputStreamState) :
    StepResult × List Ev :=
  if env.sendEofRes < 0 then
    (.err (.av "sending EOF to encoder" env.sendEofRes), [.sentEOF])
  else
    match AVCodecContextWrapper.flush env.rescale st.codecCtx.time_base
        st.streamTimeBase st.streamIndex env.recvSteps with
    | .ok _ => (.ok, [.sentEOF, .drained])
    | .err e _ => (.err e, [.sentEOF, .drained])
    | .noMoreSteps _ => (.stuck, [.sentEOF, .drained])

/-- Embedding of `SimpleVideoEncoder::finish` (src/lib.rs lines 220-224):
finish the output stream, then write the container trailer. -/
def SimpleVideoEncoder.finish (env : FinishEnv) (st : OutputStreamState) :
    StepResult × List Ev :=
  match OutputStream.finish env st with
  | (.ok, evs) =>
    if env.trailerRes < 0 then
      (.err (.av "writing trailer to output file" env.trailerRes),
        evs ++ [.wroteTrailer])
    else (.ok, evs ++ [.wroteTrailer])
  | (r, evs) => (r, evs)

/-! ## Container construction (src/output.rs lines 22-150, src/lib.rs
lines 164-186) -/

/-- `AV_CODEC_ID_H264` in the AVCodecID enumeration. -/
def AV_CODEC_ID_H264 : Int := 27

/-- `AV_PIX_FMT_YUV420P` in the AVPixelFormat enumeration. -/
def AV_PIX_FMT_YUV420P : Int := 0

/-- `AV_PIX_FMT_RGB24` in the AVPixelFormat enumeration. -/
def AV_PIX_FMT_RGB24 : Int := 2

/-- The externally visible calls `SimpleVideoEncoderBuilder::build` makes,
in order: allocate the output format context, add the stream (and its
encoder), open the video codec, open the destination file, write the
container header, allocate the reusable RGB ingestion frame. -/
inductive BuildEv where
  | allocOutputContext
  | addedStream
  | openedCodec
  | openedFile
  | wroteHeader
  | allocRgbFrame
deriving DecidableEq, Repr

/-- Outcomes of the native calls during `build`:
filename conversion (a `Some` is the error message of the UTF-8 /
interior-nul failure), `avformat_alloc_output_context2` (whether the
returned context is null, and its status code), `avcodec_find_encoder`
(with the codec name used in the error message), the video-type check,
the `OutputStream::new` environment, `avcodec_open2`,
`avcodec_parameters_from_context`, `avio_open`, `avformat_write_header`,
and the RGB frame allocation. -/
structure BuildEnv where
  filenameErr : Option String
  ctxNull : Bool
  allocRes : Int
  findEncoderOk : Bool
  codecName : String
  codecIsVideo : Bool
  snew : StreamNewEnv
  openCodecRes : Int
  copyParamsRes : Int
  avioRes : Int
  headerRes : Int
  rgbFrameEnv : FrameAllocEnv
deriving DecidableEq, Repr

/-- Embedding of `OutputFormatContext::new` (src/output.rs lines 27-59):
convert the filename, call `avformat_alloc_output_context2`; a null
context with a negative status is reported as an allocation failure via
`make_av_error`, a null context with a nonnegative status (the library
could not infer the container format from the extension) as the
unrecognized-format message. -/
def OutputFormatContext.new (filenameErr : Option String) (ctxNull : Bool)
    (allocRes : Int) : Except EncError Unit × List BuildEv :=
  match filenameErr with
  | some s => (.error (.msg s), [])
  | none =>
    if ctxNull then
      if allocRes < 0 then
        (.error (.av "allocating file format context" allocRes), [.allocOutputContext])
      else
        (.error (.msg "Unspecified error: could not determine output format from file extension"),
          [.allocOutputContext])
    else (.ok (), [.allocOutputContext])

/-- Embedding of `OutputFormatContext::add_stream` (src/output.rs lines
105-141): find the encoder, reject non-video codecs, then build the
output stream. -/
def OutputFormatContext.add_stream (findEncoderOk : Bool) (codecName : String)
    (codecIsVideo : Bool) (snew : StreamNewEnv)
    (codecId width height framerate pixFmt : Int) (settings : OptionalSettings) :
    Except EncError OutputStreamState :=
  if ¬findEncoderOk then
    .error (.msg ("Error finding encoder for codec " ++ codecName))
  else if ¬codecIsVideo then
    .error (.msg "Error: the specified codec is not a video codec")
  else OutputStream.new snew codecId width height framerate pixFmt settings

/-- Status handling of `OutputStream::open_video` (src/output.rs lines
351-395): `avcodec_open2` then `avcodec_parameters_from_context`. -/
def OutputStream.open_video_result (openCodecRes copyParamsRes : Int) :
    Except EncError Unit :=
  if openCodecRes < 0 then .error (.av "opening video codec" openCodecRes)
  else if copyParamsRes < 0 then
    .error (.av "copying stream parameters" copyParamsRes)
  else .ok ()

/-- Embedding of `OutputFormatContext::open_file` (src/output.rs lines
61-75): `avio_open` on the destination path. -/
def OutputFormatContext.open_file (avioRes : Int) : Except EncError Unit :=
  if avioRes < 0 then .error (.av "opening destination file" avioRes) else .ok ()

/-- Embedding of `OutputFormatContext::write_header` (src/output.rs lines
78-92). -/
def OutputFormatContext.write_header (headerRes : Int) : Except EncError Unit :=
  if headerRes < 0 then .error (.av "writing header to output file" headerRes)
  else .ok ()

/-- Embedding of `SimpleVideoEncoderBuilder::build` (src/lib.rs lines
165-185): allocate the format context, add an H.264 YUV420P stream, open
the video codec, open the destination file, write the header, allocate the
RGB24 ingestion frame.  Returns the stream state and the calls made. -/
def SimpleVideoEncoderBuilder.build (env : BuildEnv)
    (width height framerate : Int) (settings : OptionalSettings) :
    Except EncError OutputStreamState × List BuildEv :=
  match OutputFormatContext.new env.filenameErr env.ctxNull env.allocRes with
  | (.error e, evs) => (.error e, evs)
  | (.ok _, evs) =>
    match OutputFormatContext.add_stream env.findEncoderOk env.codecName
        env.codecIsVideo env.snew AV_CODEC_ID_H264 width height framerate
        AV_PIX_FMT_YUV420P settings with
    | .error e => (.error e, evs ++ [.addedStream])
    | .ok st =>
      match OutputStream.open_video_result env.openCodecRes env.copyParamsRes with
      | .error e => (.error e, evs ++ [.addedStream, .openedCodec])
      | .ok _ =>
        match OutputFormatContext.open_file env.avioRes with
        | .error e => (.error e, evs ++ [.addedStream, .openedCodec, .openedFile])
        | .ok _ =>
          match OutputFormatContext.write_header env.headerRes with
          | .error e =>
            (.error e, evs ++ [.addedStream, .openedCodec, .openedFile, .wroteHeader])
          | .ok _ =>
            match Frame.new env.rgbFrameEnv AV_PIX_FMT_RGB24 width height with
            | .error e =>
              (.error e, evs ++
                [.addedStream, .openedCodec, .openedFile, .wroteHeader, .allocRgbFrame])
            | .ok _ =>
              (.ok st, evs ++
                [.addedStream, .openedCodec, .openedFile, .wroteHeader, .allocRgbFrame])

/-! ## Frame::fill_from_cairo_rgb and Frame::fill_from_image_rgb
(src/frame.rs lines 32-91 and 99-125) -/

/-- The pixel layouts of a Cairo image surface (the `cairo::Format`
enumeration). -/
inductive CairoFormat where
  | invalid
  | aRgb32
  | rgb24
  | a8
  | a1
  | rgb16_565
  | rgb30
deriving DecidableEq, Repr

/-- A Cairo image surface: geometry, pixel layout, row stride and raw
bytes. -/
structure CairoSurface where
  width : Int
  height : Int
  fmt : CairoFormat
  stride : Int
  data : List Nat
deriving DecidableEq, Repr

/-- The pixel-copy loop of `fill_from_cairo_rgb` on a little-endian
target: for every row y and column x of the frame, read the 32-bit Cairo
pixel at byte offset y*stride + 4x — blue at +0, green at +1, red at +2,
the alpha byte at +3 never read — and write r, g, b at byte offset
y*frame_stride + 3x of the frame's plane 0. -/
def fillPixelsCairo (frame : Frame) (surf : CairoSurface) : List Nat :=
  let frameStride := frame.linesize0.toNat
  let cairoStride := surf.stride.toNat
  (List.range frame.height.toNat).foldl (fun d y =>
    (List.range frame.width.toNat).foldl (fun d x =>
      let r := surf.data.getD (y * cairoStride + 4 * x + 2) 0
      let g := surf.data.getD (y * cairoStride + 4 * x + 1) 0
      let b := surf.data.getD (y * cairoStride + 4 * x) 0
      let o := y * frameStride + 3 * x
      ((d.set o r).set (o + 1) g).set (o + 2) b) d) frame.data0

/-- Embedding of `Frame::fill_from_cairo_rgb` (src/frame.rs lines 32-91):
make the frame writable, reject geometry mismatches, reject any layout
other than RGB24 and ARGB32, then copy the pixels.  Returns the result
together with the frame (unchanged unless the copy ran). -/
def Frame.fill_from_cairo_rgb (ensureRes : Int) (frame : Frame)
    (surf : CairoSurface) : Except EncError Unit × Frame :=
  if ensureRes < 0 then (.error (.av "making frame writeable" ensureRes), frame)
  else if surf.width ≠ frame.width ∨ surf.height ≠ frame.height then
    (.error (.msg "Cairo surface does not match frame size!"), frame)
  else if surf.fmt ≠ .rgb24 ∧ surf.fmt ≠ .aRgb32 then
    (.error (.msg "Only CAIRO_FORMAT_RGB24 and CAIRO_FORMAT_ARGB32 are supported"),
      frame)
  else (.ok (), { frame with data0 := fillPixelsCairo frame surf })

/-- An `image::RgbImage`: geometry plus the (r, g, b) value of each pixel.
The pixel layout is packed 24-bit RGB by construction of the type. -/
structure RgbImage where
  width : Nat
  height : Nat
  px : Nat → Nat → Nat × Nat × Nat

/-- The pixel-copy loop of `fill_from_image_rgb`: for every row y and
column x of the image, write the pixel's r, g, b at byte offset
y*frame_stride + 3x of the frame's plane 0. -/
def fillPixelsImage (frame : Frame) (img : RgbImage) : List Nat :=
  let frameStride := frame.linesize0.toNat
  (List.range img.height).foldl (fun d y =>
    (List.range img.width).foldl (fun d x =>
      let p := img.px x y
      let o := y * frameStride + 3 * x
      ((d.set o p.1).set (o + 1) p.2.1).set (o + 2) p.2.2) d) frame.data0

/-- Embedding of `Frame::fill_from_image_rgb` (src/frame.rs lines 99-125):
make the frame writable, reject geometry mismatches, then copy the
pixels.  No layout check is needed: `RgbImage` is packed RGB by type. -/
def Frame.fill_from_image_rgb (ensureRes : Int) (frame : Frame)
    (img : RgbImage) : Except EncError Unit × Frame :=
  if ensureRes < 0 then (.error (.av "making frame writeable" ensureRes), frame)
  else if (img.width : Int) ≠ frame.width ∨ (img.height : Int) ≠ frame.height then
    (.error (.msg "RgbImage image does not match frame size!"), frame)
  else (.ok (), { frame with data0 := fillPixelsImage frame img })

/-! ## Caller-facing usage discipline (src/lib.rs lines 195-238)

`SimpleVideoEncoder::finish(mut self)` takes the encoder by value and
consumes it; `append_frame_cairo(&mut self)` borrows it mutably and gives
it back.  The call sequences a caller can ever make are therefore exactly
the ones generated by these signatures: any number of appends, optionally
terminated by one finish.  A sequence with a call after a finish is
rejected by the compiler's move check — that rejection is the usage
error. -/

inductive ApiCall where
  | appendFrame
  | finish
deriving DecidableEq, Repr

/-- The call sequences representable against the API's ownership
signatures, in chronological order: `append_frame_cairo` (`&mut self`)
allows any valid continuation; `finish` (`mut self`) consumes the encoder
and allows none. -/
inductive ValidCallSeq : List ApiCall → Prop where
  | nil : ValidCallSeq []
  | append {l : List ApiCall} : ValidCallSeq l → ValidCallSeq (.appendFrame :: l)
  | finished : ValidCallSeq [.finish]

/-- True when no call of any kind follows a finish in the sequence. -/
def noCallAfterFinish : List ApiCall → Bool
  | [] => true
  | .appendFrame :: l => noCallAfterFinish l
  | .finish :: l => l.isEmpty

/-! ## Process-wide logging level (src/lib.rs lines 104-119)

`SimpleVideoEncoderBuilder::new` calls `av_log_set_level(AV_LOG_QUIET)`
unconditionally — there is no initialization guard.  The state below
tracks the process-wide level and how many times the set-level call has
run. -/

/-- `AV_LOG_QUIET`. -/
def AV_LOG_QUIET : Int := -8

/-- `AV_LOG_INFO`, the default libav logging level at process start. -/
def AV_LOG_INFO : Int := 32

structure LogState where
  level : Int
  setLevelCalls : Nat
deriving DecidableEq, Repr

/-- The process-wide effect of one `SimpleVideoEncoderBuilder::new` (also
reached through `SimpleVideoEncoder::new` and `builder`): an unconditional
`av_log_set_level(AV_LOG_QUIET)` call. -/
def SimpleVideoEncoderBuilder.newLogEffect (s : LogState) : LogState :=
  { level := AV_LOG_QUIET, setLevelCalls := s.setLevelCalls + 1 }

/-- The process-wide logging state after n Encoder/Builder constructions
starting from state s. -/
def constructionsFrom (s : LogState) : Nat → LogState
  | 0 => s
  | n + 1 => SimpleVideoEncoderBuilder.newLogEffect (constructionsFrom s n)

theorem AVCodecContextWrapper.flushLoop_append_good (rescale : TimeBase → TimeBase → Int → Int)
    (encTB strTB : TimeBase) (idx : Int) (pre rest : List RecvStep)
    (handed : List PacketOut) (hpre : ∀ s ∈ pre, goodStep s) :
    AVCodecContextWrapper.flushLoop rescale encTB strTB idx (pre ++ rest) handed =
      AVCodecContextWrapper.flushLoop rescale encTB strTB idx rest
        (handed ++ pre.map (stepPacket rescale encTB strTB idx)) := by
  induction pre generalizing handed with
  | nil => simp
  | cons s pre ih =>
    obtain ⟨h1, h2⟩ := hpre s (List.mem_cons_self s pre)
    have hne : ¬(s.recvRes = AVERROR_EAGAIN ∨ s.recvRes = AVERROR_EOF) := by
      rintro (h | h) <;> rw [h] at h1 <;> simp [AVERROR_EAGAIN, AVERROR_EOF] at h1
    simp only [List.cons_append, AVCodecContextWrapper.flushLoop, hne, if_false, not_lt.mpr h1,
      not_lt.mpr h2, if_false]
    rw [List.append_eq, ih _ (fun t ht => hpre t (List.mem_cons_of_mem s ht))]
    simp [stepPacket, List.append_assoc]

/-- Claim C2: a single drain call loops pulling packets from the encoder
session; it returns ok when the session reports EAGAIN or EOF; every packet
produced is rescaled from the encoder time base to the stream time base,
tagged with the stream index, and handed to the container for interleaved
writing, in order; a non-EAGAIN/EOF receive failure or a write failure
aborts the drain immediately and propagates that error, with no further
packets handed. -/
theorem claim_C2_receive_drain (rescale : TimeBase → TimeBase → Int → Int)
    (encTB strTB : TimeBase) (idx : Int) (pre : List RecvStep)
    (term : RecvStep) (rest : List RecvStep)
    (hpre : ∀ s ∈ pre, goodStep s) :
    ((term.recvRes = AVERROR_EAGAIN ∨ term.recvRes = AVERROR_EOF) →
      AVCodecContextWrapper.flush rescale encTB strTB idx (pre ++ term :: rest) =
        .ok (pre.map (stepPacket rescale encTB strTB idx))) ∧
    (term.recvRes < 0 → term.recvRes ≠ AVERROR_EAGAIN → term.recvRes ≠ AVERROR_EOF →
      AVCodecContextWrapper.flush rescale encTB strTB idx (pre ++ term :: rest) =
        .err (.av "encoding a frame" term.recvRes)
          (pre.map (stepPacket rescale encTB strTB idx))) ∧
    (0 ≤ term.recvRes → term.writeRes < 0 →
      AVCodecContextWrapper.flush rescale encTB strTB idx (pre ++ term :: rest) =
        .err (.av "writing output packet" term.writeRes)
          (pre.map (stepPacket rescale encTB strTB idx) ++
            [stepPacket rescale encTB strTB idx term])) := by
  unfold AVCodecContextWrapper.flush
  rw [AVCodecContextWrapper.flushLoop_append_good rescale encTB strTB idx pre (term :: rest) [] hpre]
  refine ⟨fun hterm => ?_, fun hneg hne1 hne2 => ?_, fun hnn hw => ?_⟩
  · simp [AVCodecContextWrapper.flushLoop, hterm]
  · have hne : ¬(term.recvRes = AVERROR_EAGAIN ∨ term.recvRes = AVERROR_EOF) := by
      rintro (h | h) <;> [exact hne1 h; exact hne2 h]
    simp [AVCodecContextWrapper.flushLoop, hne, hneg]
  · have hne : ¬(term.recvRes = AVERROR_EAGAIN ∨ term.recvRes = AVERROR_EOF) := by
      rintro (h | h) <;> rw [h] at hnn <;> simp [AVERROR_EAGAIN, AVERROR_EOF] at hnn
    simp [AVCodecContextWrapper.flushLoop, hne, not_lt.mpr hnn, hw, stepPacket]

/-- Witness for C2: a concrete drain in which one packet (encoder pts 5) is
rescaled by a doubling rescale function, tagged with stream index 3 and
written, after which the encoder reports EAGAIN and the drain returns ok. -/
theorem claim_C2_receive_drain_witness :
    AVCodecContextWrapper.flush (fun _ _ p => p + p) ⟨1, 25⟩ ⟨1, 30⟩ 3
      [⟨0, 5, 0⟩, ⟨AVERROR_EAGAIN, 0, 0⟩] = .ok [⟨10, 3⟩] := by
  have h := (claim_C2_receive_drain (fun _ _ p => p + p) ⟨1, 25⟩ ⟨1, 30⟩ 3
      [⟨0, 5, 0⟩] ⟨AVERROR_EAGAIN, 0, 0⟩ [] (by decide)).1 (Or.inl rfl)
  simpa [stepPacket] using h

/-- Claim C8: `scale` returns ok exactly when `ensure_writeable` on the
destination frame succeeds; the return value of the underlying `sws_scale`
call is discarded, so the result is the same for every `sws_scale` outcome
and `ensure_writeable` is the only error source of the conversion. -/
theorem claim_C8_scale_ignores_sws_result (ensureRes swsRes swsResOther : Int)
    (converted : List Nat) (src dest : Frame) (height : Int) :
    (SwsContextWrapper.scale ensureRes swsRes converted src dest height =
      SwsContextWrapper.scale ensureRes swsResOther converted src dest height) ∧
    (0 ≤ ensureRes →
      SwsContextWrapper.scale ensureRes swsRes converted src dest height =
        .ok { dest with data0 := converted }) ∧
    (ensureRes < 0 →
      SwsContextWrapper.scale ensureRes swsRes converted src dest height =
        .error (.av "making frame writeable" ensureRes)) := by
  refine ⟨rfl, fun h => ?_, fun h => ?_⟩
  · simp [SwsContextWrapper.scale, not_lt.mpr h]
  · simp [SwsContextWrapper.scale, h]

/-- Witness for C8: with a successful `ensure_writeable` (status 0) and a
failing `sws_scale` (status -1), the conversion still returns ok. -/
theorem claim_C8_scale_ignores_sws_result_witness :
    SwsContextWrapper.scale 0 (-1) [7]
      { pixel_format := 0, width := 1, height := 1, pts := 0,
        data0 := [0], linesize0 := 3 }
      { pixel_format := 2, width := 1, height := 1, pts := 0,
        data0 := [0], linesize0 := 3 } 1 =
    .ok { pixel_format := 2, width := 1, height := 1, pts := 0,
          data0 := [7], linesize0 := 3 } :=
  (claim_C8_scale_ignores_sws_result 0 (-1) 5 [7]
    { pixel_format := 0, width := 1, height := 1, pts := 0,
      data0 := [0], linesize0 := 3 }
    { pixel_format := 2, width := 1, height := 1, pts := 0,
      data0 := [0], linesize0 := 3 } 1).2.1 (by decide)

/-- Claim C9: with a setting left unspecified the encoder session gets
bit rate 800000, GOP size 10, and preset "medium"; with CRF unspecified no
"crf" option is passed to the encoder at all. -/
theorem claim_C9_defaults (env : StreamNewEnv)
    (codecId width height framerate pixFmt : Int)
    (settings : OptionalSettings) (st : OutputStreamState)
    (h : OutputStream.new env codecId width height framerate pixFmt settings = .ok st) :
    (settings.bitrate = none → st.codecCtx.bit_rate = 800000) ∧
    (settings.gop_size = none → st.codecCtx.gop_size = 10) ∧
    (settings.preset = none →
      ("preset", DictVal.str "medium") ∈ OutputStream.openVideoOptions settings) ∧
    (settings.crf = none →
      ∀ v, ("crf", v) ∉ OutputStream.openVideoOptions settings) := by
  unfold OutputStream.new at h
  by_cases h1 : env.streamAllocOk
  case neg => simp [h1] at h
  by_cases h2 : env.codecCtxAllocOk
  case neg => simp [h1, h2] at h
  simp only [h1, h2, not_true, if_false, ite_false, not_false_eq_true, if_true] at h
  rcases hf : Frame.new env.tempFrameEnv pixFmt width height with e | tf <;> rw [hf] at h
  · cases h
  · by_cases h3 : env.packetAllocOk
    · simp only [h3, not_true, if_false, ite_false, not_false_eq_true, if_true] at h
      cases h
      refine ⟨fun hb => ?_, fun hg => ?_, fun hp => ?_, fun hc v hv => ?_⟩
      · simp [hb]
      · simp [hg]
      · simp [OutputStream.openVideoOptions, hp, X264Preset.as_bytes_with_nul]
      · simp [OutputStream.openVideoOptions, hc] at hv
    · simp [h3] at h

/-- Witness for C9: a concrete successful `OutputStream::new` with every
setting unspecified yields bit rate 800000 and GOP size 10, and the option
dictionary is exactly the "medium" preset with no "crf" entry. -/
theorem claim_C9_defaults_witness :
    (OutputStream.new
        { streamAllocOk := true, nbStreams := 1, streamIdx := 0,
          codecCtxAllocOk := true,
          tempFrameEnv := { allocOk := true, bufferRes := 0, buffer := [], stride := 3 },
          packetAllocOk := true, formatGlobalHeader := false }
        27 2 2 30 0 { crf := none, bitrate := none, gop_size := none, preset := none } =
      .ok
        { streamId := 0, streamIndex := 0, streamTimeBase := { num := 1, den := 30 },
          codecCtx :=
            { codec_id := 27, bit_rate := 800000, width := 2, height := 2,
              time_base := { num := 1, den := 30 }, gop_size := 10, pix_fmt := 0,
              flags := 0 },
          next_pts := 0,
          temp_frame :=
            { pixel_format := 0, width := 2, height := 2, pts := AV_NOPTS_VALUE,
              data0 := [], linesize0 := 3 },
          sws_context := none }) ∧
    (("preset", DictVal.str "medium") ∈
      OutputStream.openVideoOptions
        { crf := none, bitrate := none, gop_size := none, preset := none }) ∧
    (∀ v, ("crf", v) ∉
      OutputStream.openVideoOptions
        { crf := none, bitrate := none, gop_size := none, preset := none }) := by
  have hnew : OutputStream.new
      { streamAllocOk := true, nbStreams := 1, streamIdx := 0,
        codecCtxAllocOk := true,
        tempFrameEnv := { allocOk := true, bufferRes := 0, buffer := [], stride := 3 },
        packetAllocOk := true, formatGlobalHeader := false }
      27 2 2 30 0 { crf := none, bitrate := none, gop_size := none, preset := none } =
      .ok
        { streamId := 0, streamIndex := 0, streamTimeBase := { num := 1, den := 30 },
          codecCtx :=
            { codec_id := 27, bit_rate := 800000, width := 2, height := 2,
              time_base := { num := 1, den := 30 }, gop_size := 10, pix_fmt := 0,
              flags := 0 },
          next_pts := 0,
          temp_frame :=
            { pixel_format := 0, width := 2, height := 2, pts := AV_NOPTS_VALUE,
              data0 := [], linesize0 := 3 },
          sws_context := none } := by rfl
  have h := claim_C9_defaults _ 27 2 2 30 0 _ _ hnew
  exact ⟨hnew, h.2.2.1 rfl, h.2.2.2 rfl⟩

theorem OutputStream.stampSendDrain_spec (env : WriteFrameEnv)
    (st : OutputStreamState) (cf ch : Frame) (ut : Bool) (evs : List Ev) :
    (OutputStream.stampSendDrain env st cf ch ut evs).evs =
      evs ++ [.sentFrame ut st.next_pts] ++
        (if env.sendRes < 0 then [] else [.drained]) ∧
    (OutputStream.stampSendDrain env st cf ch ut evs).st.sws_context =
      st.sws_context ∧
    (OutputStream.stampSendDrain env st cf ch ut evs).st.next_pts =
      st.next_pts + 1 ∧
    (OutputStream.stampSendDrain env st cf ch ut evs).st.codecCtx =
      st.codecCtx := by
  unfold OutputStream.stampSendDrain
  by_cases h : env.sendRes < 0 <;> cases ut <;> simp [h]

theorem OutputStream.convertSendDrain_spec (env : WriteFrameEnv)
    (st : OutputStreamState) (frame : Frame) (evs : List Ev) :
    (OutputStream.convertSendDrain env st frame evs).evs =
      evs ++ [.scaled st.codecCtx.height] ++
        (if env.ensureRes < 0 then []
         else [.sentFrame true st.next_pts] ++
           (if env.sendRes < 0 then [] else [.drained])) ∧
    (OutputStream.convertSendDrain env st frame evs).st.sws_context =
      st.sws_context ∧
    (OutputStream.convertSendDrain env st frame evs).st.next_pts =
      (if env.ensureRes < 0 then st.next_pts else st.next_pts + 1) ∧
    (OutputStream.convertSendDrain env st frame evs).st.codecCtx =
      st.codecCtx := by
  unfold OutputStream.convertSendDrain SwsContextWrapper.scale
  by_cases h : env.ensureRes < 0
  · simp [h]
  · have hs := OutputStream.stampSendDrain_spec env
      { st with temp_frame := { st.temp_frame with data0 := env.converted } }
      frame { st.temp_frame with data0 := env.converted } true
      (evs ++ [Ev.scaled st.codecCtx.height])
    simp only [h, if_false, ite_false]
    simp only [List.append_assoc] at hs ⊢
    exact ⟨by rw [hs.1], hs.2.1, hs.2.2.1, hs.2.2.2⟩

/-- Claim C3: `write_frame` converts exactly when the submitted frame's
pixel format differs from the encoder context's pixel format.  On the first
mismatch the conversion context is created from the submitted frame and the
destination frame and cached; on every later call the cached context is kept
unchanged (never rebuilt).  The conversion call's height argument is always
the encoder context's configured height (for every submitted frame, whatever
its own height), and the frame sent after conversion is the stream's
temporary destination frame.  When the formats match, the caller's frame is
sent directly: no conversion context is created and no scale call happens. -/
theorem claim_C3_lazy_conversion (env : WriteFrameEnv) (st : OutputStreamState)
    (frame : Frame) :
    (st.codecCtx.pix_fmt = frame.pixel_format →
      (OutputStream.write_frame env st frame).st.sws_context = st.sws_context ∧
      (∀ r, Ev.createdSws r ∉ (OutputStream.write_frame env st frame).evs) ∧
      (∀ hgt, Ev.scaled hgt ∉ (OutputStream.write_frame env st frame).evs) ∧
      Ev.sentFrame false st.next_pts ∈ (OutputStream.write_frame env st frame).evs) ∧
    (st.codecCtx.pix_fmt ≠ frame.pixel_format → st.sws_context = none →
      env.swsAllocOk = true →
      (OutputStream.write_frame env st frame).st.sws_context =
        some (SwsCtxRecord.ofFrames frame st.temp_frame) ∧
      Ev.createdSws (SwsCtxRecord.ofFrames frame st.temp_frame) ∈
        (OutputStream.write_frame env st frame).evs ∧
      Ev.scaled st.codecCtx.height ∈ (OutputStream.write_frame env st frame).evs ∧
      (0 ≤ env.ensureRes →
        Ev.sentFrame true st.next_pts ∈ (OutputStream.write_frame env st frame).evs)) ∧
    (∀ r, st.codecCtx.pix_fmt ≠ frame.pixel_format → st.sws_context = some r →
      (OutputStream.write_frame env st frame).st.sws_context = some r ∧
      (∀ r2, Ev.createdSws r2 ∉ (OutputStream.write_frame env st frame).evs) ∧
      Ev.scaled st.codecCtx.height ∈ (OutputStream.write_frame env st frame).evs ∧
      (0 ≤ env.ensureRes →
        Ev.sentFrame true st.next_pts ∈ (OutputStream.write_frame env st frame).evs)) ∧
    (∀ hgt, Ev.scaled hgt ∈ (OutputStream.write_frame env st frame).evs →
      hgt = st.codecCtx.height) := by
  refine ⟨fun hf => ?_, fun hf hn ha => ?_, fun r hf hs => ?_, fun hgt hmem => ?_⟩
  · obtain ⟨he, hc, hp, _⟩ :=
      OutputStream.stampSendDrain_spec env st frame frame false []
    simp only [OutputStream.write_frame, hf, if_true, ite_true] at *
    refine ⟨hc, fun r => ?_, fun h2 => ?_, ?_⟩ <;> rw [he] <;>
      split_ifs <;> simp
  · obtain ⟨he, hc, hp, _⟩ := OutputStream.convertSendDrain_spec env
      { st with sws_context := some (SwsCtxRecord.ofFrames frame st.temp_frame) }
      frame [Ev.createdSws (SwsCtxRecord.ofFrames frame st.temp_frame)]
    simp only [OutputStream.write_frame, hf, if_false, hn, ha, if_true, ite_true,
      ite_false] at *
    refine ⟨hc, ?_, ?_, fun hok => ?_⟩ <;> rw [he] <;>
      split_ifs with h1 h2 <;>
      simp_all <;> omega
  · obtain ⟨he, hc, hp, _⟩ := OutputStream.convertSendDrain_spec env st frame []
    simp only [OutputStream.write_frame, hf, if_false, hs, ite_false] at *
    refine ⟨by rw [hc], fun r2 => ?_, ?_, fun hok => ?_⟩ <;> rw [he] <;>
      split_ifs with h1 h2 <;>
      simp_all <;> omega
  · by_cases hf : st.codecCtx.pix_fmt = frame.pixel_format
    · obtain ⟨he, _, _, _⟩ :=
        OutputStream.stampSendDrain_spec env st frame frame false []
      simp only [OutputStream.write_frame, hf, if_true, ite_true] at hmem
      rw [he] at hmem
      revert hmem
      split_ifs <;> simp
    · rcases hsws : st.sws_context with _ | r
      · by_cases ha : env.swsAllocOk
        · obtain ⟨he, _, _, _⟩ := OutputStream.convertSendDrain_spec env
            { st with
              sws_context := some (SwsCtxRecord.ofFrames frame st.temp_frame) }
            frame [Ev.createdSws (SwsCtxRecord.ofFrames frame st.temp_frame)]
          simp only [OutputStream.write_frame, hf, if_false, hsws, ha, if_true,
            ite_true, ite_false] at hmem
          rw [he] at hmem
          revert hmem
          split_ifs <;> simp_all
        · simp only [OutputStream.write_frame, hf, if_false, hsws, ha, if_false,
            ite_false] at hmem
          simp at hmem
      · obtain ⟨he, _, _, _⟩ := OutputStream.convertSendDrain_spec env st frame []
        simp only [OutputStream.write_frame, hf, if_false, hsws, ite_false] at hmem
        rw [he] at hmem
        revert hmem
        split_ifs <;> simp_all

/-- Witness for C3: submitting an RGB frame (format 2, geometry 5x7, caller
pts 42) to the YUV stream creates and caches the conversion context built
from the two frames, scales with height 2 (the encoder's configured height,
not the source's 7), and sends the temporary destination frame stamped with
pts 0. -/
theorem claim_C3_lazy_conversion_witness :
    (OutputStream.write_frame sampleWriteEnv sampleStream sampleRgbFrame).st.sws_context =
      some { srcW := 5, srcH := 7, srcFmt := 2, dstW := 2, dstH := 2, dstFmt := 0 } ∧
    Ev.scaled 2 ∈ (OutputStream.write_frame sampleWriteEnv sampleStream sampleRgbFrame).evs ∧
    Ev.sentFrame true 0 ∈
      (OutputStream.write_frame sampleWriteEnv sampleStream sampleRgbFrame).evs := by
  have h := (claim_C3_lazy_conversion sampleWriteEnv sampleStream sampleRgbFrame).2.1
    (by decide) rfl rfl
  refine ⟨?_, ?_, ?_⟩
  · simpa [SwsCtxRecord.ofFrames, sampleStream, sampleRgbFrame] using h.1
  · simpa [sampleStream] using h.2.2.1
  · simpa [sampleStream] using h.2.2.2 le_rfl

theorem write_frame_sent_one (env : WriteFrameEnv) (st : OutputStreamState)
    (frame : Frame) :
    (OutputStream.write_frame env st frame).st.codecCtx = st.codecCtx ∧
    (reachesSend env st frame →
      sentPts (OutputStream.write_frame env st frame).evs = [st.next_pts] ∧
      (OutputStream.write_frame env st frame).st.next_pts = st.next_pts + 1) := by
  by_cases hf : st.codecCtx.pix_fmt = frame.pixel_format
  · obtain ⟨he, _, hp, hc⟩ :=
      OutputStream.stampSendDrain_spec env st frame frame false []
    have hw : OutputStream.write_frame env st frame =
        OutputStream.stampSendDrain env st frame frame false [] := by
      simp [OutputStream.write_frame, hf]
    rw [hw]
    refine ⟨hc, fun _ => ⟨?_, hp⟩⟩
    rw [he]
    split_ifs <;> simp [sentPts]
  · rcases hsws : st.sws_context with _ | r
    · by_cases ha : env.swsAllocOk
      · obtain ⟨he, _, hp, hc⟩ := OutputStream.convertSendDrain_spec env
          { st with
            sws_context := some (SwsCtxRecord.ofFrames frame st.temp_frame) }
          frame [Ev.createdSws (SwsCtxRecord.ofFrames frame st.temp_frame)]
        have hw : OutputStream.write_frame env st frame =
            OutputStream.convertSendDrain env
              { st with
                sws_context := some (SwsCtxRecord.ofFrames frame st.temp_frame) }
              frame [Ev.createdSws (SwsCtxRecord.ofFrames frame st.temp_frame)] := by
          simp [OutputStream.write_frame, hf, hsws, ha]
        rw [hw]
        refine ⟨hc, fun hr => ?_⟩
        have hok : 0 ≤ env.ensureRes := by
          rcases hr with h | h
          · exact absurd h hf
          · exact h.2
        rw [he, hp]
        simp only [not_lt.mpr hok, if_false, ite_false]
        constructor
        · split_ifs <;> simp [sentPts]
        · trivial
      · have hw : OutputStream.write_frame env st frame =
            { res := .err (.msg "Error initializing SwsContext"), st := st,
              callerFrame := frame, evs := [] } := by
          simp [OutputStream.write_frame, hf, hsws, ha]
        rw [hw]
        refine ⟨rfl, fun hr => ?_⟩
        rcases hr with h | h
        · exact absurd h hf
        · exact absurd h.1 (by simpa using ha)
    · obtain ⟨he, _, hp, hc⟩ := OutputStream.convertSendDrain_spec env st frame []
      have hw : OutputStream.write_frame env st frame =
          OutputStream.convertSendDrain env st frame [] := by
        simp [OutputStream.write_frame, hf, hsws]
      rw [hw]
      refine ⟨hc, fun hr => ?_⟩
      have hok : 0 ≤ env.ensureRes := by
        rcases hr with h | h
        · exact absurd h hf
        · exact h.2
      rw [he, hp]
      simp only [not_lt.mpr hok, if_false, ite_false]
      constructor
      · split_ifs <;> simp [sentPts]
      · trivial

theorem writeFrames_sent (inputs : List (Frame × WriteFrameEnv)) :
    ∀ st : OutputStreamState,
    (∀ p ∈ inputs, st.codecCtx.pix_fmt = p.1.pixel_format ∨
      (p.2.swsAllocOk = true ∧ 0 ≤ p.2.ensureRes)) →
    sentPts (OutputStream.writeFrames st inputs).2 =
      (List.range inputs.length).map (fun i : Nat => st.next_pts + (i : Int)) ∧
    (OutputStream.writeFrames st inputs).1.codecCtx = st.codecCtx := by
  induction inputs with
  | nil => intro st h; simp [OutputStream.writeFrames, sentPts]
  | cons p rest ih =>
    intro st h
    obtain ⟨hctx, hsent⟩ := write_frame_sent_one p.2 st p.1
    obtain ⟨hone, hnext⟩ := hsent (by
      rcases h p (List.mem_cons_self p rest) with h1 | h1
      · exact Or.inl h1
      · exact Or.inr h1)
    have hrest := ih (OutputStream.write_frame p.2 st p.1).st (by
      intro q hq
      rw [hctx]
      exact h q (List.mem_cons_of_mem p hq))
    constructor
    · show sentPts ((OutputStream.write_frame p.2 st p.1).evs ++
        (OutputStream.writeFrames (OutputStream.write_frame p.2 st p.1).st rest).2) = _
      rw [sentPts, List.filterMap_append, ← sentPts, ← sentPts, hone, hrest.1, hnext]
      rw [List.length_cons, List.range_succ_eq_map, List.map_cons, List.map_map,
        List.singleton_append]
      simp only [Nat.cast_zero, add_zero, List.cons.injEq, true_and]
      refine List.map_congr_left fun a _ => ?_
      simp only [Function.comp_apply, Nat.cast_succ]
      ring
    · show (OutputStream.writeFrames (OutputStream.write_frame p.2 st p.1).st rest).1.codecCtx = _
      rw [hrest.2, hctx]

/-- Claim C1: starting from a freshly constructed output stream, the
presentation timestamps stamped on the frames handed to the encoder by a
sequence of N `write_frame` calls form exactly 0, 1, ..., N-1 — the
internal counter starts at 0 and increments by one per submitted frame —
whatever pts values the caller had set on the submitted frames.  (The
hypothesis on each submission only rules out a conversion-setup failure,
which would make the frame never reach the encoder.) -/
theorem claim_C1_pts_sequence (nenv : StreamNewEnv)
    (codecId width height framerate pixFmt : Int) (settings : OptionalSettings)
    (st0 : OutputStreamState) (inputs : List (Frame × WriteFrameEnv))
    (hnew : OutputStream.new nenv codecId width height framerate pixFmt settings = .ok st0)
    (hok : ∀ p ∈ inputs, pixFmt = p.1.pixel_format ∨
      (p.2.swsAllocOk = true ∧ 0 ≤ p.2.ensureRes)) :
    sentPts (OutputStream.writeFrames st0 inputs).2 =
      (List.range inputs.length).map (fun i : Nat => (i : Int)) := by
  have hfields : st0.next_pts = 0 ∧ st0.codecCtx.pix_fmt = pixFmt := by
    unfold OutputStream.new at hnew
    by_cases h1 : nenv.streamAllocOk
    case neg => simp [h1] at hnew
    by_cases h2 : nenv.codecCtxAllocOk
    case neg => simp [h1, h2] at hnew
    simp only [h1, h2, not_true, ite_false, not_false_eq_true, if_true] at hnew
    rcases hfr : Frame.new nenv.tempFrameEnv pixFmt width height with e | tf <;>
      rw [hfr] at hnew
    · cases hnew
    · by_cases h3 : nenv.packetAllocOk
      · simp only [h3, not_true, ite_false, not_false_eq_true, if_true] at hnew
        cases hnew
        exact ⟨rfl, rfl⟩
      · simp [h3] at hnew
  obtain ⟨hz, hfmt⟩ := hfields
  have h := writeFrames_sent inputs st0 (by
    intro p hp
    rcases hok p hp with h1 | h1
    · exact Or.inl (by rw [hfmt, h1])
    · exact Or.inr h1)
  rw [h.1, hz]
  simp

/-- Witness for C1: two frames whose caller-set pts are 99 and 7 are
submitted to a freshly constructed stream; the pts handed to the encoder
are 0 and 1. -/
theorem claim_C1_pts_sequence_witness :
    sentPts (OutputStream.writeFrames sampleStream
      [({ pixel_format := 0, width := 2, height := 2, pts := 99, data0 := [],
          linesize0 := 6 }, sampleWriteEnv),
       ({ pixel_format := 0, width := 2, height := 2, pts := 7, data0 := [],
          linesize0 := 6 }, sampleWriteEnv)]).2 = [0, 1] := by
  have h := claim_C1_pts_sequence
    { streamAllocOk := true, nbStreams := 1, streamIdx := 0,
      codecCtxAllocOk := true,
      tempFrameEnv := { allocOk := true, bufferRes := 0, buffer := [], stride := 6 },
      packetAllocOk := true, formatGlobalHeader := false }
    27 2 2 30 0 { crf := none, bitrate := none, gop_size := none, preset := none }
    sampleStream
    [({ pixel_format := 0, width := 2, height := 2, pts := 99, data0 := [],
        linesize0 := 6 }, sampleWriteEnv),
     ({ pixel_format := 0, width := 2, height := 2, pts := 7, data0 := [],
        linesize0 := 6 }, sampleWriteEnv)]
    (by rfl)
    (by decide)
  simpa using h

/-- Claim C4: `finish` performs exactly the sequence: signal end of stream
(null frame), one final drain, then write the container trailer; on the
success path the calls made are exactly those three in that order, and on a
failing end-of-stream signal or a failing drain the later steps (including
the trailer write) do not happen and the error propagates. -/
theorem claim_C4_finish_sequence (env : FinishEnv) (st : OutputStreamState) :
    (∀ handed, 0 ≤ env.sendEofRes →
      AVCodecContextWrapper.flush env.rescale st.codecCtx.time_base
        st.streamTimeBase st.streamIndex env.recvSteps = .ok handed →
      0 ≤ env.trailerRes →
      SimpleVideoEncoder.finish env st =
        (.ok, [.sentEOF, .drained, .wroteTrailer])) ∧
    (env.sendEofRes < 0 →
      SimpleVideoEncoder.finish env st =
        (.err (.av "sending EOF to encoder" env.sendEofRes), [.sentEOF])) ∧
    (∀ e handed, 0 ≤ env.sendEofRes →
      AVCodecContextWrapper.flush env.rescale st.codecCtx.time_base
        st.streamTimeBase st.streamIndex env.recvSteps = .err e handed →
      SimpleVideoEncoder.finish env st = (.err e, [.sentEOF, .drained])) := by
  refine ⟨fun handed hs hf ht => ?_, fun hs => ?_, fun e handed hs hf => ?_⟩
  · unfold SimpleVideoEncoder.finish OutputStream.finish
    simp [not_lt.mpr hs, hf, not_lt.mpr ht]
  · unfold SimpleVideoEncoder.finish OutputStream.finish
    simp [hs]
  · unfold SimpleVideoEncoder.finish OutputStream.finish
    simp [not_lt.mpr hs, hf]

/-- Witness for C4: with a successful end-of-stream signal, a drain that
immediately reports EOF, and a successful trailer write, `finish` performs
exactly send-EOF, one drain, then the trailer write. -/
theorem claim_C4_finish_sequence_witness :
    SimpleVideoEncoder.finish
      { sendEofRes := 0, rescale := fun _ _ p => p,
        recvSteps := [{ recvRes := AVERROR_EOF, pktPts := 0, writeRes := 0 }],
        trailerRes := 0 } sampleStream =
      (.ok, [.sentEOF, .drained, .wroteTrailer]) :=
  (claim_C4_finish_sequence
    { sendEofRes := 0, rescale := fun _ _ p => p,
      recvSteps := [{ recvRes := AVERROR_EOF, pktPts := 0, writeRes := 0 }],
      trailerRes := 0 } sampleStream).1 [] le_rfl (by rfl) le_rfl

/-- Claim C6: when the muxer library cannot determine the container format
from the file extension (null context with nonnegative status), `build`
fails with the unrecognized-format message — a value distinct from every
allocation-failure error — and the destination file is never opened: no
`openedFile` call appears in the trace. -/
theorem claim_C6_unrecognized_format (env : BuildEnv)
    (width height framerate : Int) (settings : OptionalSettings)
    (hname : env.filenameErr = none) (hnull : env.ctxNull = true)
    (hres : 0 ≤ env.allocRes) :
    (SimpleVideoEncoderBuilder.build env width height framerate settings).1 =
      .error (.msg "Unspecified error: could not determine output format from file extension") ∧
    BuildEv.openedFile ∉
      (SimpleVideoEncoderBuilder.build env width height framerate settings).2 ∧
    (∀ action code,
      EncError.msg "Unspecified error: could not determine output format from file extension" ≠
        EncError.av action code) := by
  have hnew : OutputFormatContext.new env.filenameErr env.ctxNull env.allocRes =
      (.error (.msg "Unspecified error: could not determine output format from file extension"),
        [.allocOutputContext]) := by
    rw [hname]
    unfold OutputFormatContext.new
    simp [hnull, not_lt.mpr hres]
  unfold SimpleVideoEncoderBuilder.build
  rw [hnew]
  exact ⟨rfl, by simp, fun action code h => EncError.noConfusion h⟩

/-- Witness for C6: a concrete build in which format inference fails
(null context, status 0) returns the unrecognized-format error and the
trace contains only the allocation attempt — in particular no file open. -/
theorem claim_C6_unrecognized_format_witness :
    (SimpleVideoEncoderBuilder.build
      { filenameErr := none, ctxNull := true, allocRes := 0,
        findEncoderOk := true, codecName := "h264", codecIsVideo := true,
        snew :=
          { streamAllocOk := true, nbStreams := 1, streamIdx := 0,
            codecCtxAllocOk := true,
            tempFrameEnv := { allocOk := true, bufferRes := 0, buffer := [], stride := 6 },
            packetAllocOk := true, formatGlobalHeader := false },
        openCodecRes := 0, copyParamsRes := 0, avioRes := 0, headerRes := 0,
        rgbFrameEnv := { allocOk := true, bufferRes := 0, buffer := [], stride := 6 } }
      2 2 30 { crf := none, bitrate := none, gop_size := none, preset := none }).1 =
      .error (.msg "Unspecified error: could not determine output format from file extension") ∧
    BuildEv.openedFile ∉
      (SimpleVideoEncoderBuilder.build
        { filenameErr := none, ctxNull := true, allocRes := 0,
          findEncoderOk := true, codecName := "h264", codecIsVideo := true,
          snew :=
            { streamAllocOk := true, nbStreams := 1, streamIdx := 0,
              codecCtxAllocOk := true,
              tempFrameEnv := { allocOk := true, bufferRes := 0, buffer := [], stride := 6 },
              packetAllocOk := true, formatGlobalHeader := false },
          openCodecRes := 0, copyParamsRes := 0, avioRes := 0, headerRes := 0,
          rgbFrameEnv := { allocOk := true, bufferRes := 0, buffer := [], stride := 6 } }
        2 2 30 { crf := none, bitrate := none, gop_size := none, preset := none }).2 := by
  have h := claim_C6_unrecognized_format
    { filenameErr := none, ctxNull := true, allocRes := 0,
      findEncoderOk := true, codecName := "h264", codecIsVideo := true,
      snew :=
        { streamAllocOk := true, nbStreams := 1, streamIdx := 0,
          codecCtxAllocOk := true,
          tempFrameEnv := { allocOk := true, bufferRes := 0, buffer := [], stride := 6 },
          packetAllocOk := true, formatGlobalHeader := false },
      openCodecRes := 0, copyParamsRes := 0, avioRes := 0, headerRes := 0,
      rgbFrameEnv := { allocOk := true, bufferRes := 0, buffer := [], stride := 6 } }
    2 2 30 { crf := none, bitrate := none, gop_size := none, preset := none }
    rfl rfl le_rfl
  exact ⟨h.1, h.2.1⟩

/-- Claim C5: both fill-from operations reject, with the size-mismatch
error and without touching the frame's pixels, every source whose
geometry differs from the frame's; the Cairo path additionally rejects,
with the unsupported-format error and without touching the pixels, every
layout outside the whitelist (RGB24, and ARGB32 whose alpha byte is never
read); only sources passing the checks have their pixels written. -/
theorem claim_C5_fill_from_validation (ensureRes : Int) (frame : Frame)
    (surf : CairoSurface) (img : RgbImage) (hok : 0 ≤ ensureRes) :
    ((surf.width ≠ frame.width ∨ surf.height ≠ frame.height) →
      Frame.fill_from_cairo_rgb ensureRes frame surf =
        (.error (.msg "Cairo surface does not match frame size!"), frame)) ∧
    (surf.width = frame.width → surf.height = frame.height →
      surf.fmt ≠ .rgb24 → surf.fmt ≠ .aRgb32 →
      Frame.fill_from_cairo_rgb ensureRes frame surf =
        (.error (.msg "Only CAIRO_FORMAT_RGB24 and CAIRO_FORMAT_ARGB32 are supported"),
          frame)) ∧
    (surf.width = frame.width → surf.height = frame.height →
      (surf.fmt = .rgb24 ∨ surf.fmt = .aRgb32) →
      Frame.fill_from_cairo_rgb ensureRes frame surf =
        (.ok (), { frame with data0 := fillPixelsCairo frame surf })) ∧
    (((img.width : Int) ≠ frame.width ∨ (img.height : Int) ≠ frame.height) →
      Frame.fill_from_image_rgb ensureRes frame img =
        (.error (.msg "RgbImage image does not match frame size!"), frame)) ∧
    ((img.width : Int) = frame.width → (img.height : Int) = frame.height →
      Frame.fill_from_image_rgb ensureRes frame img =
        (.ok (), { frame with data0 := fillPixelsImage frame img })) := by
  refine ⟨fun hsz => ?_, fun hw hh hf1 hf2 => ?_, fun hw hh hf => ?_,
    fun hsz => ?_, fun hw hh => ?_⟩
  · unfold Frame.fill_from_cairo_rgb
    simp only [not_lt.mpr hok, if_false, ite_false]
    rw [if_pos hsz]
  · unfold Frame.fill_from_cairo_rgb
    simp [not_lt.mpr hok, hw, hh, hf1, hf2]
  · unfold Frame.fill_from_cairo_rgb
    have hfmt : ¬(surf.fmt ≠ .rgb24 ∧ surf.fmt ≠ .aRgb32) := by
      rcases hf with h | h <;> simp [h]
    simp [not_lt.mpr hok, hw, hh, hfmt]
  · unfold Frame.fill_from_image_rgb
    simp only [not_lt.mpr hok, if_false, ite_false]
    rw [if_pos hsz]
  · unfold Frame.fill_from_image_rgb
    simp [not_lt.mpr hok, hw, hh]

/-- Witness for C5: on a 1x1 frame, a 2x1 Cairo surface is rejected with
the size-mismatch error and the frame bytes stay [0, 0, 0]; a 1x1 ARGB32
surface with bytes [10, 20, 30, 40] (b, g, r, alpha on little-endian)
passes and writes [30, 20, 10] — the alpha byte 40 is discarded. -/
theorem claim_C5_fill_from_validation_witness :
    Frame.fill_from_cairo_rgb 0
      { pixel_format := 2, width := 1, height := 1, pts := 0,
        data0 := [0, 0, 0], linesize0 := 3 }
      { width := 2, height := 1, fmt := .rgb24, stride := 8, data := [] } =
      (.error (.msg "Cairo surface does not match frame size!"),
        { pixel_format := 2, width := 1, height := 1, pts := 0,
          data0 := [0, 0, 0], linesize0 := 3 }) ∧
    Frame.fill_from_cairo_rgb 0
      { pixel_format := 2, width := 1, height := 1, pts := 0,
        data0 := [0, 0, 0], linesize0 := 3 }
      { width := 1, height := 1, fmt := .aRgb32, stride := 4,
        data := [10, 20, 30, 40] } =
      (.ok (), { pixel_format := 2, width := 1, height := 1, pts := 0,
                 data0 := [30, 20, 10], linesize0 := 3 }) := by
  constructor
  · exact (claim_C5_fill_from_validation 0
      { pixel_format := 2, width := 1, height := 1, pts := 0,
        data0 := [0, 0, 0], linesize0 := 3 }
      { width := 2, height := 1, fmt := .rgb24, stride := 8, data := [] }
      { width := 1, height := 1, px := fun _ _ => (0, 0, 0) } le_rfl).1
      (Or.inl (by decide))
  · have h := (claim_C5_fill_from_validation 0
      { pixel_format := 2, width := 1, height := 1, pts := 0,
        data0 := [0, 0, 0], linesize0 := 3 }
      { width := 1, height := 1, fmt := .aRgb32, stride := 4,
        data := [10, 20, 30, 40] }
      { width := 1, height := 1, px := fun _ _ => (0, 0, 0) } le_rfl).2.2.1
      rfl rfl (Or.inr rfl)
    simpa [fillPixelsCairo] using h

/-- Claim C7: every call sequence the API admits contains at most one
finish and nothing after a finish; in particular the sequences
finish-then-finish and finish-then-append are not admitted (they fail with
the compiler's use-after-move usage error), so no execution exists in
which a second finish or a late append could crash or corrupt the file
written by the first finish. -/
theorem claim_C7_finish_consumes :
    (∀ l, ValidCallSeq l →
      l.count ApiCall.finish ≤ 1 ∧ noCallAfterFinish l = true) ∧
    ¬ ValidCallSeq [ApiCall.finish, ApiCall.finish] ∧
    ¬ ValidCallSeq [ApiCall.finish, ApiCall.appendFrame] := by
  refine ⟨fun l h => ?_, fun h => ?_, fun h => ?_⟩
  · induction h with
    | nil => simp [noCallAfterFinish]
    | append _ ih =>
      refine ⟨?_, by simpa [noCallAfterFinish] using ih.2⟩
      simpa [List.count_cons] using ih.1
    | finished => simp [noCallAfterFinish]
  · cases h
  · cases h

/-- Witness for C7: the sequence append-then-finish is admitted and
satisfies the bound. -/
theorem claim_C7_finish_consumes_witness :
    [ApiCall.appendFrame, ApiCall.finish].count ApiCall.finish ≤ 1 ∧
    noCallAfterFinish [ApiCall.appendFrame, ApiCall.finish] = true :=
  claim_C7_finish_consumes.1 [ApiCall.appendFrame, ApiCall.finish]
    (ValidCallSeq.append ValidCallSeq.finished)

/-- Counterexample to C10: starting from the default level, two
Encoder/Builder constructions run the set-level call twice — there is no
idempotent initialization guard and the call is not made exactly once, so
a construction other than the first does set the level again. -/
theorem claim_C10_counterexample :
    (constructionsFrom { level := AV_LOG_INFO, setLevelCalls := 0 } 2).setLevelCalls = 2 ∧
    (2 : Nat) ≠ 1 := by
  exact ⟨rfl, by decide⟩

/-- Claim C10 as amended: every Encoder/Builder construction
unconditionally sets the native logging level to quiet (n constructions
perform n set-level calls — there is no initialization guard); since the
call is idempotent in effect, after any positive number of constructions
the process-wide level is quiet, and nothing ever tears this down. -/
theorem claim_C10_logging_amended (s : LogState) (n : Nat) (h : 1 ≤ n) :
    (constructionsFrom s n).level = AV_LOG_QUIET ∧
    (constructionsFrom s n).setLevelCalls = s.setLevelCalls + n := by
  have hc : ∀ k, (constructionsFrom s k).setLevelCalls = s.setLevelCalls + k := by
    intro k
    induction k with
    | zero => simp [constructionsFrom]
    | succ m ih =>
      simp only [constructionsFrom, SimpleVideoEncoderBuilder.newLogEffect, ih]
      omega
  rcases n with _ | m
  · omega
  · exact ⟨rfl, hc (m + 1)⟩

/-- Witness for the amended C10: three constructions from the default
state leave the level quiet and have performed three set-level calls. -/
theorem claim_C10_logging_amended_witness :
    (constructionsFrom { level := AV_LOG_INFO, setLevelCalls := 0 } 3).level =
      AV_LOG_QUIET ∧
    (constructionsFrom { level := AV_LOG_INFO, setLevelCalls := 0 } 3).setLevelCalls = 3 :=
  claim_C10_logging_amended { level := AV_LOG_INFO, setLevelCalls := 0 } 3
    (by decide)
